import Mathlib

/-!
Shallow embedding of `src/sys_util/src/eventfd.rs`: a safe wrapper around a
Linux eventfd (a kernel-maintained 64-bit counter addressed through file
descriptors).

The wrapper code itself (`EventFd::new`, `write`, `read`, `try_read`,
`try_clone` and the `Error` enum) is translated from the source.  The kernel
side (the eventfd counter object, the fd table, and the `eventfd`, `write`,
`read`, `poll`, `dup` syscalls) is not part of the repository; it is modelled
from the spec's description of the kernel counter facility (spec sections 3-6
and the glossary): a counter `0 ≤ c ≤ u64::MAX`, `write` adds and blocks when
the addition would overflow, `read` blocks until the counter is non-zero and
then atomically captures it and resets it to 0, a zero-timeout readiness
check, and `dup` producing a fresh descriptor for the same counter object.

Blocking is represented by `Option`: in this sequential model (no concurrent
peer that could unblock the call) a call that blocks never returns, which is
encoded as `none`.  Errors carried by `io::Error` are represented by the raw
OS error code (a `Nat`).
-/

namespace EventFdSpec

/-- Largest value representable in a `u64`; the spec bounds the kernel counter
by "a maximum representable 64-bit unsigned value". -/
def U64_MAX : Nat := 2 ^ 64 - 1

/-- OS error code for an invalid file descriptor. -/
def EBADF : Nat := 9

/-- OS error code for "too many open files" (descriptor limit reached). -/
def EMFILE : Nat := 24

/-- Modelled from the spec: the kernel state visible to this module.
`counters` holds the eventfd counter objects (one 64-bit value each),
`fdTable` maps file descriptors to counter objects (`none` marks a slot that
is not a valid descriptor), and `fdLimit` is the per-process descriptor limit
("resource limits exhausted" in the spec's description of creation failure). -/
structure Kernel where
  counters : List Nat
  fdTable : List (Option Nat)
  fdLimit : Nat
deriving DecidableEq

/-- Resolve a file descriptor to `(counter object index, current count)`;
`none` when the descriptor is invalid. -/
def Kernel.deref (k : Kernel) (fd : Nat) : Option (Nat × Nat) :=
  (k.fdTable[fd]?.bind id).bind fun o => (k.counters[o]?).map fun c => (o, c)

/-- Modelled from the spec: the `eventfd(0, 0)` syscall.  Allocates a fresh
counter object with value 0 and a fresh descriptor for it; fails with
`EMFILE` when the descriptor limit is exhausted.  Returns
`(return value, errno, new kernel state)`. -/
def sys_eventfd (k : Kernel) : Int × Nat × Kernel :=
  if k.fdLimit ≤ k.fdTable.length then (-1, EMFILE, k)
  else ((k.fdTable.length : Int), 0,
    { counters := k.counters ++ [0]
      fdTable := k.fdTable ++ [some k.counters.length]
      fdLimit := k.fdLimit })

/-- Modelled from the spec: the blocking `write(fd, &v, 8)` syscall on an
eventfd.  Adds `v` to the counter; blocks (`none`) when the addition would
exceed the counter's maximum; fails with `EBADF` on an invalid descriptor.
On a non-blocked return yields `(return value, errno, new kernel state)`. -/
def sys_write (k : Kernel) (fd : Nat) (v : Nat) : Option (Int × Nat × Kernel) :=
  match k.deref fd with
  | none => some (-1, EBADF, k)
  | some (o, c) =>
    if c + v ≤ U64_MAX then
      some (8, 0, { k with counters := k.counters.set o (c + v) })
    else none

/-- Modelled from the spec: the blocking `read(fd, &buf, 8)` syscall on an
eventfd.  Blocks (`none`) while the counter is 0; otherwise atomically
captures the counter value and resets it to 0; fails with `EBADF` on an
invalid descriptor.  On a non-blocked return yields
`(return value, value stored to the buffer, errno, new kernel state)`. -/
def sys_read (k : Kernel) (fd : Nat) : Option (Int × Nat × Nat × Kernel) :=
  match k.deref fd with
  | none => some (-1, 0, EBADF, k)
  | some (o, c) =>
    if c = 0 then none
    else some (8, c, 0, { k with counters := k.counters.set o 0 })

/-- Modelled from the spec: the zero-timeout readiness check
(`poll(&pd, 1, 0)` with `events = POLLIN`).  Never blocks.  Reports 1 when
the counter is non-zero (readable), 0 when there is no data yet, and an
error (negative return, errno `EBADF`) when the descriptor is invalid.
Returns `(return value, errno, kernel state)`. -/
def sys_poll (k : Kernel) (fd : Nat) : Int × Nat × Kernel :=
  match k.deref fd with
  | none => (-1, EBADF, k)
  | some (_, c) => if 0 < c then (1, 0, k) else (0, 0, k)

/-- Modelled from the spec: the `dup(fd)` syscall.  Allocates a fresh
descriptor referring to the same counter object; fails with `EBADF` on an
invalid descriptor and with `EMFILE` when the descriptor limit is
exhausted.  Returns `(return value, errno, new kernel state)`. -/
def sys_dup (k : Kernel) (fd : Nat) : Int × Nat × Kernel :=
  match k.deref fd with
  | none => (-1, EBADF, k)
  | some (o, _) =>
    if k.fdLimit ≤ k.fdTable.length then (-1, EMFILE, k)
    else ((k.fdTable.length : Int), 0, { k with fdTable := k.fdTable ++ [some o] })

/-- An `EventFd` owns one file descriptor (source: `struct EventFd { eventfd: File }`);
the handle is the descriptor number. -/
abbrev EventFd := Nat

/-- The error enum of the source module (eventfd.rs lines 115-124): only two
variants, `NotReady` and `ReadFailed` carrying the underlying IO error. -/
inductive Error where
  | NotReady : Error
  | ReadFailed : Nat → Error
deriving DecidableEq

/-- Translation of `EventFd::new` (eventfd.rs lines 23-36): call
`eventfd(0, 0)`; if the return value is negative, return the last OS error,
otherwise wrap the returned descriptor. -/
def EventFd.new (k : Kernel) : Except Nat EventFd × Kernel :=
  let ret := (sys_eventfd k).1
  let errno := (sys_eventfd k).2.1
  let k1 := (sys_eventfd k).2.2
  if ret < 0 then (Except.error errno, k1) else (Except.ok ret.toNat, k1)

/-- Translation of `EventFd::write` (eventfd.rs lines 39-54): call
`write(fd, &v, 8)`; if the return value is ≤ 0, return the last OS error,
otherwise succeed.  `none` means the syscall blocked. -/
def EventFd.write (k : Kernel) (e : EventFd) (v : Nat) : Option (Except Nat Unit × Kernel) :=
  (sys_write k e v).map fun r =>
    if r.1 ≤ 0 then (Except.error r.2.1, r.2.2) else (Except.ok (), r.2.2)

/-- Translation of `EventFd::read` (eventfd.rs lines 57-73): call
`read(fd, &buf, 8)`; if the return value is ≤ 0, return the last OS error,
otherwise return the buffer contents.  `none` means the syscall blocked. -/
def EventFd.read (k : Kernel) (e : EventFd) : Option (Except Nat Nat × Kernel) :=
  (sys_read k e).map fun r =>
    if r.1 ≤ 0 then (Except.error r.2.2.1, r.2.2.2) else (Except.ok r.2.1, r.2.2.2)

/-- Translation of `EventFd::try_read` (eventfd.rs lines 77-92): run the
zero-timeout readiness check; on 0 return `Error.NotReady`; on a positive
status delegate to `read`, wrapping its failure in `Error.ReadFailed`; on a
negative status return `Error.ReadFailed` with the readiness check's OS
error.  `none` would mean a blocked call. -/
def EventFd.try_read (k : Kernel) (e : EventFd) : Option (Except Error Nat × Kernel) :=
  let pollStatus := (sys_poll k e).1
  let pollErrno := (sys_poll k e).2.1
  let k1 := (sys_poll k e).2.2
  if pollStatus = 0 then some (Except.error Error.NotReady, k1)
  else if 0 < pollStatus then
    (EventFd.read k1 e).map fun p => (p.1.mapError Error.ReadFailed, p.2)
  else some (Except.error (Error.ReadFailed pollErrno), k1)

/-- Translation of `EventFd::try_clone` (eventfd.rs lines 96-108): call
`dup(fd)`; if the return value is negative, return the last OS error,
otherwise wrap the new descriptor. -/
def EventFd.try_clone (k : Kernel) (e : EventFd) : Except Nat EventFd × Kernel :=
  let ret := (sys_dup k e).1
  let errno := (sys_dup k e).2.1
  let k1 := (sys_dup k e).2.2
  if ret < 0 then (Except.error errno, k1) else (Except.ok ret.toNat, k1)

/-- An empty kernel with a generous descriptor limit: the state from which
the tests' fresh `EventFd` is created. -/
def k0 : Kernel := { counters := [], fdTable := [], fdLimit := 64 }

/-- The kernel after creating one eventfd (descriptor 0) whose counter
holds `v`. -/
def kLoaded (v : Nat) : Kernel := { counters := [v], fdTable := [some 0], fdLimit := 64 }

/-- The kernel after `EventFd.new k0`: one eventfd, counter 0. -/
def kFresh : Kernel := kLoaded 0

/-- The descriptor handed out by `EventFd.new k0`. -/
def fd0 : EventFd := 0

/-- The kernel after duplicating the fresh eventfd's descriptor:
descriptors 0 and 1 both refer to counter object 0. -/
def kDup : Kernel := { counters := [0], fdTable := [some 0, some 0], fdLimit := 64 }

/-- The `kDup` kernel with the shared counter holding `v`. -/
def kDupLoaded (v : Nat) : Kernel :=
  { counters := [v], fdTable := [some 0, some 0], fdLimit := 64 }

/-- A kernel whose only descriptor slot is invalid (e.g. already closed):
every operation through descriptor 0 fails with `EBADF`. -/
def kBad : Kernel := { counters := [], fdTable := [none], fdLimit := 64 }

/-- A kernel whose descriptor limit is exhausted: creation fails with
`EMFILE`. -/
def kNoRoom : Kernel := { counters := [], fdTable := [], fdLimit := 0 }

example : EventFd.new k0 = (Except.ok fd0, kFresh) := rfl
example : EventFd.write kFresh fd0 55 = some (Except.ok (), kLoaded 55) := rfl
example : EventFd.read (kLoaded 55) fd0 = some (Except.ok 55, kFresh) := rfl
example : EventFd.try_read kFresh fd0 = some (Except.error Error.NotReady, kFresh) := rfl
example : EventFd.try_read (kLoaded 7) fd0 = some (Except.ok 7, kFresh) := rfl
example : EventFd.try_clone kFresh fd0 = (Except.ok 1, kDup) := rfl
example : EventFd.write kBad fd0 5 = some (Except.error EBADF, kBad) := rfl
example : EventFd.new kNoRoom = (Except.error EMFILE, kNoRoom) := rfl
example : EventFd.read kFresh fd0 = none := rfl
example : EventFd.try_read kBad fd0 = some (Except.error (Error.ReadFailed EBADF), kBad) := rfl

/-! Helper lemmas about the kernel model and the wrapper operations. -/

/-- Unfolding a successful descriptor resolution. -/
theorem Kernel.deref_some {k : Kernel} {fd o c : Nat} (h : k.deref fd = some (o, c)) :
    k.fdTable[fd]? = some (some o) ∧ k.counters[o]? = some c := by
  unfold Kernel.deref at h
  rcases Option.bind_eq_some.mp h with ⟨o', h1, h2⟩
  rcases Option.bind_eq_some.mp h1 with ⟨s, hs, hid⟩
  rcases Option.map_eq_some'.mp h2 with ⟨c', hc', heq⟩
  cases heq
  simp only [id_eq] at hid
  subst hid
  exact ⟨hs, hc'⟩

/-- Setting the counter object a descriptor resolves to changes what the
descriptor resolves to accordingly. -/
theorem Kernel.deref_set {k : Kernel} {fd o c : Nat} (h : k.deref fd = some (o, c)) (x : Nat) :
    Kernel.deref { k with counters := k.counters.set o x } fd = some (o, x) := by
  obtain ⟨ht, hc⟩ := Kernel.deref_some h
  have hlt : o < k.counters.length := by
    rcases List.getElem?_eq_some.mp hc with ⟨hl, _⟩
    exact hl
  simp [Kernel.deref, ht, List.getElem?_set_self hlt]

/-- The zero-timeout readiness check never changes the kernel state. -/
theorem sys_poll_state (k : Kernel) (e : Nat) : (sys_poll k e).2.2 = k := by
  unfold sys_poll
  rcases k.deref e with _ | ⟨o, c⟩
  · rfl
  · by_cases h : 0 < c <;> simp [h]

/-- A non-overflowing `write` through a valid descriptor succeeds and adds to
the counter. -/
theorem write_ok {k : Kernel} {e : EventFd} {o c : Nat} (v : Nat)
    (hd : k.deref e = some (o, c)) (h : c + v ≤ U64_MAX) :
    EventFd.write k e v =
      some (Except.ok (), { k with counters := k.counters.set o (c + v) }) := by
  simp [EventFd.write, sys_write, hd, h]

/-- A `read` through a valid descriptor with a non-zero counter succeeds,
returns the counter value and resets it to 0. -/
theorem read_ok {k : Kernel} {e : EventFd} {o c : Nat}
    (hd : k.deref e = some (o, c)) (h : c ≠ 0) :
    EventFd.read k e = some (Except.ok c, { k with counters := k.counters.set o 0 }) := by
  simp [EventFd.read, sys_read, hd, h]

/-- A `try_read` through a valid descriptor with a non-zero counter succeeds,
returns the counter value and resets it to 0. -/
theorem try_read_ok {k : Kernel} {e : EventFd} {o c : Nat}
    (hd : k.deref e = some (o, c)) (h : c ≠ 0) :
    EventFd.try_read k e = some (Except.ok c, { k with counters := k.counters.set o 0 }) := by
  have hp : sys_poll k e = (1, 0, k) := by simp [sys_poll, hd, Nat.pos_of_ne_zero h]
  simp [EventFd.try_read, hp, read_ok hd h, Except.mapError]

/-- A failing `write` leaves the kernel state unchanged. -/
theorem write_error_state {k k' : Kernel} {e : EventFd} {v err : Nat}
    (h : EventFd.write k e v = some (Except.error err, k')) : k' = k := by
  unfold EventFd.write sys_write at h
  rcases hd : k.deref e with _ | ⟨o, c⟩ <;> rw [hd] at h
  · simp at h; exact h.2.symm
  · by_cases hle : c + v ≤ U64_MAX <;> simp [hle] at h

/-- A failing `read` leaves the kernel state unchanged. -/
theorem read_error_state {k k' : Kernel} {e : EventFd} {err : Nat}
    (h : EventFd.read k e = some (Except.error err, k')) : k' = k := by
  unfold EventFd.read sys_read at h
  rcases hd : k.deref e with _ | ⟨o, c⟩ <;> rw [hd] at h
  · simp at h; exact h.2.symm
  · by_cases hc : c = 0 <;> simp [hc] at h

/-- A failing `try_read` leaves the kernel state unchanged. -/
theorem try_read_error_state {k k' : Kernel} {e : EventFd} {err : Error}
    (h : EventFd.try_read k e = some (Except.error err, k')) : k' = k := by
  unfold EventFd.try_read at h
  rcases hd : k.deref e with _ | ⟨o, c⟩
  · have hp : sys_poll k e = (-1, EBADF, k) := by simp [sys_poll, hd]
    rw [hp] at h; simp at h; exact h.2.symm
  · rcases Nat.eq_zero_or_pos c with hc | hc
    · have hp : sys_poll k e = (0, 0, k) := by simp [sys_poll, hd, hc]
      rw [hp] at h; simp at h; exact h.2.symm
    · have hp : sys_poll k e = (1, 0, k) := by simp [sys_poll, hd, hc]
      rw [hp] at h
      simp [read_ok hd (by omega), Except.mapError] at h

/-- Inversion of a successful `read`: the descriptor was valid, the counter
held the returned (non-zero) value, and the new state has the counter reset
to 0. -/
theorem read_ok_inv {k k2 : Kernel} {e : EventFd} {r : Nat}
    (h : EventFd.read k e = some (Except.ok r, k2)) :
    ∃ o, k.deref e = some (o, r) ∧ r ≠ 0 ∧
      k2 = { k with counters := k.counters.set o 0 } := by
  unfold EventFd.read sys_read at h
  rcases hd : k.deref e with _ | ⟨o, c⟩ <;> rw [hd] at h
  · simp at h
  · by_cases hc : c = 0
    · simp [hc] at h
    · simp [hc] at h
      obtain ⟨rfl, hk⟩ := h
      exact ⟨o, rfl, hc, hk.symm⟩

/-- `try_read` never blocks: on every kernel state and every descriptor it
returns (source: the readiness check uses a zero timeout, and `read` is only
entered after the check reports data). -/
theorem try_read_isSome (k : Kernel) (e : EventFd) :
    (EventFd.try_read k e).isSome = true := by
  unfold EventFd.try_read
  rcases hd : k.deref e with _ | ⟨o, c⟩
  · have hp : sys_poll k e = (-1, EBADF, k) := by simp [sys_poll, hd]
    simp [hp]
  · rcases Nat.eq_zero_or_pos c with hc | hc
    · have hp : sys_poll k e = (0, 0, k) := by simp [sys_poll, hd, hc]
      simp [hp]
    · have hp : sys_poll k e = (1, 0, k) := by simp [sys_poll, hd, hc]
      simp [hp, read_ok hd (by omega)]

/-- A non-overflowing `write` of `v` into the single-eventfd kernel with
counter `c` yields counter `c + v`. -/
theorem write_loaded (c v : Nat) (h : c + v ≤ U64_MAX) :
    EventFd.write (kLoaded c) fd0 v = some (Except.ok (), kLoaded (c + v)) := by
  have hd : (kLoaded c).deref fd0 = some (0, c) := rfl
  have := write_ok v hd h
  simpa [kLoaded] using this

/-- A `write` of `v` into the fresh single-eventfd kernel yields counter `v`. -/
theorem write_fresh (v : Nat) (h : v ≤ U64_MAX) :
    EventFd.write kFresh fd0 v = some (Except.ok (), kLoaded v) := by
  have := write_loaded 0 v (by simpa using h)
  simpa [kFresh] using this

/-- A `read` from the single-eventfd kernel with non-zero counter `v` returns
`v` and restores the fresh state. -/
theorem read_loaded (v : Nat) (h1 : 1 ≤ v) :
    EventFd.read (kLoaded v) fd0 = some (Except.ok v, kFresh) := by
  have hd : (kLoaded v).deref fd0 = some (0, v) := rfl
  have := read_ok hd (by omega)
  simpa [kLoaded, kFresh] using this

/-- A `try_read` from the single-eventfd kernel with non-zero counter `v`
returns `v` and restores the fresh state. -/
theorem try_read_loaded (v : Nat) (h1 : 1 ≤ v) :
    EventFd.try_read (kLoaded v) fd0 = some (Except.ok v, kFresh) := by
  have hd : (kLoaded v).deref fd0 = some (0, v) := rfl
  have := try_read_ok hd (by omega)
  simpa [kLoaded, kFresh] using this

/-! Model of the stack-allocated `pollfd` descriptor used by `try_read`'s
readiness check, tracking which fields have been assigned a value. -/

/-- Value of the `POLLIN` event flag passed to the readiness check. -/
def POLLIN : Int := 1

/-- One field of the stack-allocated `pollfd`: either still undefined
(declared but never assigned) or holding a value. -/
inductive FieldState where
  | undef : FieldState
  | val : Int → FieldState
deriving DecidableEq

/-- The three fields of a `libc::pollfd` (`fd`, `events`, `revents`), each
tracked with its definedness. -/
structure PollfdInit where
  fd : FieldState
  events : FieldState
  revents : FieldState
deriving DecidableEq

/-- Translation of the descriptor setup in `EventFd::try_read` (eventfd.rs
lines 78-83): the `pollfd` is declared with `std::mem::uninitialized()` (no
field holds a defined value), then only `fd` and `events` are assigned
before the structure is passed to `poll`. -/
def try_read_pollfd (rawFd : Int) : PollfdInit :=
  let pd : PollfdInit :=
    { fd := FieldState.undef, events := FieldState.undef, revents := FieldState.undef }
  let pd := { pd with fd := FieldState.val rawFd }
  let pd := { pd with events := FieldState.val POLLIN }
  pd

/-- Whether every field of the descriptor holds a defined value. -/
def PollfdInit.allFieldsSet (p : PollfdInit) : Bool :=
  p.fd != FieldState.undef && p.events != FieldState.undef && p.revents != FieldState.undef

/-! The claims. -/

/-- C1, counterexample: the claim quantifies over every `u64` value
including 0, but after `write(0)` the counter is still 0, so the subsequent
`read()` blocks forever (`none`) instead of returning `0`. -/
theorem c1_zero_write_blocks_read :
    EventFd.write kFresh fd0 0 = some (Except.ok (), kFresh) ∧
    EventFd.read kFresh fd0 = none := ⟨rfl, rfl⟩

/-- C1 (amended): for every `v` with `1 ≤ v ≤ u64::MAX`, `write(v)` on a
freshly created `EventFd` followed by `read()` returns `v` (and drains the
counter back to the fresh state). -/
theorem c1_write_then_read_returns_value (v : Nat) (h1 : 1 ≤ v) (h2 : v ≤ U64_MAX) :
    EventFd.write kFresh fd0 v = some (Except.ok (), kLoaded v) ∧
    EventFd.read (kLoaded v) fd0 = some (Except.ok v, kFresh) :=
  ⟨write_fresh v h2, read_loaded v h1⟩

/-- C1 witness: the amended statement at the test's value 55. -/
theorem c1_write_then_read_witness :
    EventFd.write kFresh fd0 55 = some (Except.ok (), kLoaded 55) ∧
    EventFd.read (kLoaded 55) fd0 = some (Except.ok 55, kFresh) :=
  c1_write_then_read_returns_value 55 (by decide) (by decide)

/-- C2: `try_read` has exactly the three outcomes determined by the
zero-timeout readiness check: status 0 gives `NotReady`; a positive status
delegates to the same capture-and-reset as `read()`, wrapping a read failure
in `ReadFailed`; a negative status gives `ReadFailed` with the readiness
check's OS error.  In each case the state returned alongside an error is the
unchanged kernel state. -/
theorem c2_try_read_outcomes :
    (∀ (k : Kernel) (e : EventFd), (sys_poll k e).1 = 0 →
      EventFd.try_read k e = some (Except.error Error.NotReady, k)) ∧
    (∀ (k : Kernel) (e : EventFd), 0 < (sys_poll k e).1 →
      EventFd.try_read k e =
        (EventFd.read k e).map fun p => (p.1.mapError Error.ReadFailed, p.2)) ∧
    (∀ (k : Kernel) (e : EventFd), (sys_poll k e).1 < 0 →
      EventFd.try_read k e =
        some (Except.error (Error.ReadFailed (sys_poll k e).2.1), k)) := by
  refine ⟨fun k e h => ?_, fun k e h => ?_, fun k e h => ?_⟩
  · unfold EventFd.try_read
    rw [if_pos h, sys_poll_state]
  · unfold EventFd.try_read
    rw [if_neg (by omega), if_pos h, sys_poll_state]
  · unfold EventFd.try_read
    rw [if_neg (by omega), if_neg (by omega), sys_poll_state]

/-- C2 witness: the three outcomes at concrete states: a fresh counter
(no data yet), a counter holding 5 (ready), and an invalid descriptor
(readiness check errors with `EBADF`). -/
theorem c2_try_read_outcomes_witness :
    EventFd.try_read kFresh fd0 = some (Except.error Error.NotReady, kFresh) ∧
    EventFd.try_read (kLoaded 5) fd0 =
      ((EventFd.read (kLoaded 5) fd0).map fun p => (p.1.mapError Error.ReadFailed, p.2)) ∧
    EventFd.try_read kBad fd0 =
      some (Except.error (Error.ReadFailed (sys_poll kBad fd0).2.1), kBad) :=
  ⟨c2_try_read_outcomes.1 kFresh fd0 (by decide),
   c2_try_read_outcomes.2.1 (kLoaded 5) fd0 (by decide),
   c2_try_read_outcomes.2.2 kBad fd0 (by decide)⟩

/-- C3, counterexample: the failures the spec names `CreationFailed`,
`WriteFailed` and `CloneFailed` are in the code reported as plain
`io::Error` values (here: the raw OS error code), not through named
variants: a failed creation yields the bare code `EMFILE`, a failed add and
a failed duplication yield the bare code `EBADF`.  The module's own `Error`
enum (eventfd.rs lines 117-124) has no such variants. -/
theorem c3_raw_os_error_counterexample :
    EventFd.new kNoRoom = (Except.error EMFILE, kNoRoom) ∧
    EventFd.write kBad fd0 5 = some (Except.error EBADF, kBad) ∧
    EventFd.try_clone kBad fd0 = (Except.error EBADF, kBad) := ⟨rfl, rfl, rfl⟩

/-- C3 (amended): the module's `Error` enum defines exactly `NotReady` and
`ReadFailed(os_error)`, which are distinct; construction, add and
duplication failures are surfaced to the caller as the originating raw OS
error (`io::Error`), not wrapped in named variants. -/
theorem c3_error_reporting :
    (∀ n : Nat, Error.NotReady ≠ Error.ReadFailed n) ∧
    (∀ err : Error, err = Error.NotReady ∨ ∃ n, err = Error.ReadFailed n) ∧
    (∀ k : Kernel, k.fdLimit ≤ k.fdTable.length →
      (EventFd.new k).1 = Except.error EMFILE) ∧
    (∀ (k : Kernel) (e : EventFd) (v : Nat), k.deref e = none →
      EventFd.write k e v = some (Except.error EBADF, k)) ∧
    (∀ (k : Kernel) (e : EventFd), k.deref e = none →
      EventFd.try_clone k e = (Except.error EBADF, k)) := by
  refine ⟨fun n h => Error.noConfusion h, fun err => ?_, fun k h => ?_,
    fun k e v h => ?_, fun k e h => ?_⟩
  · cases err with
    | NotReady => exact Or.inl rfl
    | ReadFailed n => exact Or.inr ⟨n, rfl⟩
  · unfold EventFd.new sys_eventfd
    rw [if_pos h]
    rfl
  · simp [EventFd.write, sys_write, h]
  · unfold EventFd.try_clone sys_dup
    rw [h]
    rfl

/-- C3 witness: the amended statement's failure cases at concrete states:
an exhausted descriptor limit and an invalid descriptor. -/
theorem c3_error_reporting_witness :
    (EventFd.new kNoRoom).1 = Except.error EMFILE ∧
    EventFd.write kBad fd0 5 = some (Except.error EBADF, kBad) ∧
    EventFd.try_clone kBad fd0 = (Except.error EBADF, kBad) :=
  ⟨c3_error_reporting.2.2.1 kNoRoom (by decide),
   c3_error_reporting.2.2.2.1 kBad fd0 5 (by decide),
   c3_error_reporting.2.2.2.2 kBad fd0 (by decide)⟩

/-- C4, counterexample: for the written value 0 `try_read` is not equivalent
to returning the written value: after `write(0)` the counter is still 0 and
`try_read` returns `NotReady` instead of `Ok(0)` (while `read()` would
block). -/
theorem c4_zero_write_try_read_not_ready :
    EventFd.write kFresh fd0 0 = some (Except.ok (), kFresh) ∧
    EventFd.try_read kFresh fd0 = some (Except.error Error.NotReady, kFresh) ∧
    EventFd.read kFresh fd0 = none := ⟨rfl, rfl, rfl⟩

/-- C4 (amended): for every written value `v` with `1 ≤ v ≤ u64::MAX`, a
subsequent `try_read` is observationally equivalent to `read()` (it is
exactly `read`'s result with failures wrapped in `ReadFailed`), returns `v`,
and leaves the counter at 0 (the fresh state). -/
theorem c4_try_read_equiv_read (v : Nat) (h1 : 1 ≤ v) (h2 : v ≤ U64_MAX) :
    EventFd.write kFresh fd0 v = some (Except.ok (), kLoaded v) ∧
    EventFd.try_read (kLoaded v) fd0 =
      ((EventFd.read (kLoaded v) fd0).map fun p => (p.1.mapError Error.ReadFailed, p.2)) ∧
    EventFd.try_read (kLoaded v) fd0 = some (Except.ok v, kFresh) := by
  refine ⟨write_fresh v h2, ?_, try_read_loaded v h1⟩
  rw [try_read_loaded v h1, read_loaded v h1]
  rfl

/-- C4 witness: the amended statement at the test's value
1189998819999197253. -/
theorem c4_try_read_equiv_read_witness :
    EventFd.write kFresh fd0 1189998819999197253 =
      some (Except.ok (), kLoaded 1189998819999197253) ∧
    EventFd.try_read (kLoaded 1189998819999197253) fd0 =
      ((EventFd.read (kLoaded 1189998819999197253) fd0).map
        fun p => (p.1.mapError Error.ReadFailed, p.2)) ∧
    EventFd.try_read (kLoaded 1189998819999197253) fd0 =
      some (Except.ok 1189998819999197253, kFresh) :=
  c4_try_read_equiv_read 1189998819999197253 (by decide) (by decide)

/-- C5, counterexample: the claim quantifies over every `v` including 0, but
after duplicating the fresh instance and `A.write(0)` the shared counter is
still 0, so `B.read()` blocks forever (`none`) instead of returning 0. -/
theorem c5_clone_zero_write_blocks :
    EventFd.try_clone kFresh fd0 = (Except.ok 1, kDup) ∧
    EventFd.write kDup fd0 0 = some (Except.ok (), kDup) ∧
    EventFd.read kDup 1 = none := ⟨rfl, rfl, rfl⟩

/-- C5 (amended): `try_clone` produces a second `EventFd` with a distinct
descriptor referring to the same kernel counter, and for every `v` with
`1 ≤ v ≤ u64::MAX` a write through either instance is observed by a read
through the other. -/
theorem c5_clone_shares_counter (v : Nat) (h1 : 1 ≤ v) (h2 : v ≤ U64_MAX) :
    EventFd.try_clone kFresh fd0 = (Except.ok 1, kDup) ∧
    (1 : EventFd) ≠ fd0 ∧
    EventFd.write kDup fd0 v = some (Except.ok (), kDupLoaded v) ∧
    EventFd.read (kDupLoaded v) 1 = some (Except.ok v, kDup) ∧
    EventFd.write kDup 1 v = some (Except.ok (), kDupLoaded v) ∧
    EventFd.read (kDupLoaded v) fd0 = some (Except.ok v, kDup) := by
  have hA : kDup.deref fd0 = some (0, 0) := rfl
  have hB : kDup.deref 1 = some (0, 0) := rfl
  have hLA : (kDupLoaded v).deref fd0 = some (0, v) := rfl
  have hLB : (kDupLoaded v).deref 1 = some (0, v) := rfl
  refine ⟨rfl, by decide, ?_, ?_, ?_, ?_⟩
  · have := write_ok v hA (by omega)
    simpa [kDup, kDupLoaded] using this
  · have := read_ok hLB (by omega)
    simpa [kDup, kDupLoaded] using this
  · have := write_ok v hB (by omega)
    simpa [kDup, kDupLoaded] using this
  · have := read_ok hLA (by omega)
    simpa [kDup, kDupLoaded] using this

/-- C5 witness: the amended statement at the test's value 923. -/
theorem c5_clone_shares_counter_witness :
    EventFd.try_clone kFresh fd0 = (Except.ok 1, kDup) ∧
    (1 : EventFd) ≠ fd0 ∧
    EventFd.write kDup fd0 923 = some (Except.ok (), kDupLoaded 923) ∧
    EventFd.read (kDupLoaded 923) 1 = some (Except.ok 923, kDup) ∧
    EventFd.write kDup 1 923 = some (Except.ok (), kDupLoaded 923) ∧
    EventFd.read (kDupLoaded 923) fd0 = some (Except.ok 923, kDup) :=
  c5_clone_shares_counter 923 (by decide) (by decide)

/-- C6: creating an `EventFd` from the empty kernel succeeds, the new
counter holds 0, `try_read` with no prior write returns `NotReady`, and
`try_read` never blocks on any kernel state (its result is always `some`). -/
theorem c6_fresh_not_ready_never_blocks :
    EventFd.new k0 = (Except.ok fd0, kFresh) ∧
    kFresh.deref fd0 = some (0, 0) ∧
    EventFd.try_read kFresh fd0 = some (Except.error Error.NotReady, kFresh) ∧
    ∀ (k : Kernel) (e : EventFd), (EventFd.try_read k e).isSome = true :=
  ⟨rfl, rfl, rfl, try_read_isSome⟩

/-- C7: whenever a `write` succeeds and a subsequent `read` succeeds
(returning the captured value), the counter has been reset: an immediately
following `try_read` returns `NotReady` and leaves the state unchanged. -/
theorem c7_read_resets_counter (k k1 k2 : Kernel) (e : EventFd) (v r : Nat)
    (_hw : EventFd.write k e v = some (Except.ok (), k1))
    (hr : EventFd.read k1 e = some (Except.ok r, k2)) :
    EventFd.try_read k2 e = some (Except.error Error.NotReady, k2) := by
  obtain ⟨o, hd, hne, hk2⟩ := read_ok_inv hr
  subst hk2
  have hd2 : Kernel.deref { k1 with counters := k1.counters.set o 0 } e = some (o, 0) :=
    Kernel.deref_set hd 0
  have hp : sys_poll { k1 with counters := k1.counters.set o 0 } e =
      (0, 0, { k1 with counters := k1.counters.set o 0 }) := by
    simp [sys_poll, hd2]
  unfold EventFd.try_read
  rw [hp]
  rfl

/-- C7 witness: `write(55)` then `read()` on the fresh instance, after which
`try_read` reports `NotReady`. -/
theorem c7_read_resets_counter_witness :
    EventFd.try_read kFresh fd0 = some (Except.error Error.NotReady, kFresh) :=
  c7_read_resets_counter kFresh (kLoaded 55) kFresh fd0 55 55 rfl rfl

/-- C8, counterexample: the claim quantifies over all `a`, `b` whose sum
does not overflow, including `a = b = 0`; both writes succeed but the
counter stays 0, so `read()` blocks forever (`none`) instead of returning
`0 + 0`. -/
theorem c8_zero_writes_block_read :
    EventFd.write kFresh fd0 0 = some (Except.ok (), kFresh) ∧
    EventFd.write kFresh fd0 0 = some (Except.ok (), kFresh) ∧
    EventFd.read kFresh fd0 = none := ⟨rfl, rfl, rfl⟩

/-- C8 (amended): writes accumulate: for all `a`, `b` with `1 ≤ a + b` and
`a + b ≤ u64::MAX`, `write(a); write(b); read()` on the fresh instance
returns `a + b` and drains the counter. -/
theorem c8_writes_accumulate (a b : Nat) (h1 : 1 ≤ a + b) (h2 : a + b ≤ U64_MAX) :
    EventFd.write kFresh fd0 a = some (Except.ok (), kLoaded a) ∧
    EventFd.write (kLoaded a) fd0 b = some (Except.ok (), kLoaded (a + b)) ∧
    EventFd.read (kLoaded (a + b)) fd0 = some (Except.ok (a + b), kFresh) :=
  ⟨write_fresh a (by omega), write_loaded a b h2, read_loaded (a + b) h1⟩

/-- C8 witness: the amended statement at `a = 55`, `b = 23`. -/
theorem c8_writes_accumulate_witness :
    EventFd.write kFresh fd0 55 = some (Except.ok (), kLoaded 55) ∧
    EventFd.write (kLoaded 55) fd0 23 = some (Except.ok (), kLoaded 78) ∧
    EventFd.read (kLoaded 78) fd0 = some (Except.ok 78, kFresh) :=
  c8_writes_accumulate 55 23 (by decide) (by decide)

/-- C9: every operational failure of `write`, `read` or `try_read` leaves
the kernel state unchanged, so the instance (whose descriptor is untouched)
still operates on the same underlying counter afterwards; no retry is
performed. -/
theorem c9_error_leaves_state_unchanged :
    (∀ (k k' : Kernel) (e : EventFd) (v err : Nat),
      EventFd.write k e v = some (Except.error err, k') → k' = k) ∧
    (∀ (k k' : Kernel) (e : EventFd) (err : Nat),
      EventFd.read k e = some (Except.error err, k') → k' = k) ∧
    (∀ (k k' : Kernel) (e : EventFd) (err : Error),
      EventFd.try_read k e = some (Except.error err, k') → k' = k) :=
  ⟨fun _ _ _ _ _ h => write_error_state h,
   fun _ _ _ _ h => read_error_state h,
   fun _ _ _ _ h => try_read_error_state h⟩

/-- C9 witness: concrete failing calls (through an invalid descriptor) whose
error results carry back the unchanged kernel state. -/
theorem c9_error_leaves_state_unchanged_witness :
    kBad = kBad ∧ kBad = kBad ∧ kBad = kBad :=
  ⟨c9_error_leaves_state_unchanged.1 kBad kBad fd0 5 EBADF rfl,
   c9_error_leaves_state_unchanged.2.1 kBad kBad fd0 EBADF rfl,
   c9_error_leaves_state_unchanged.2.2 kBad kBad fd0 (Error.ReadFailed EBADF) rfl⟩

/-- C10: the claim says the poll descriptor is fully defined by construction
before use, but in the code (eventfd.rs lines 78-83) it is declared with
`std::mem::uninitialized()` and only the `fd` and `events` fields are
assigned before the descriptor is passed to the kernel: its `revents` field
is still undefined at the `poll` call (e.g. for raw descriptor 3). -/
theorem c10_pollfd_field_undef :
    (try_read_pollfd 3).revents = FieldState.undef ∧
    (try_read_pollfd 3).allFieldsSet = false := ⟨rfl, rfl⟩

end EventFdSpec
